import Mathlib

/-!
Verification development for the SignalDesk deterministic scoring and
governance pipeline (src/lib/signaldesk.ts).  The TypeScript module is a
pure, synchronous function pipeline over text; it is embedded here
shallowly:

* JavaScript numbers that only ever hold integers are modelled as `Int`;
  the decision display score and claim-confidence averages, which use
  fractional arithmetic, are modelled as `ℚ` (all literals involved,
  such as 1.8 and 3.2, denote the corresponding rationals).
* JavaScript strings are modelled as Lean `String`s; `.length`,
  `charCodeAt` and `slice` are modelled over the character list, which
  agrees with the UTF-16 view on the Basic Multilingual Plane, and the
  ASCII case/whitespace rules of `toLowerCase`/`trim` are modelled on
  characters.
* Host builtins that are not part of the module are passed as explicit
  parameters: URL syntax validation (`new URL`), the wall-clock timestamp
  (`new Date().toISOString()`), the storage object (`getItem`) and
  `JSON.parse` (modelled as a total function into `Option`, `none`
  standing for a thrown parse error).
* `Record<string, T>` values are modelled as association lists in key
  insertion order, matching JavaScript's string-key enumeration order
  for the non-numeric keys the module uses.
-/

namespace SignalDesk

attribute [local semireducible] Rat.add Rat.mul Rat.inv Rat.sub

/-- Model of `String.prototype.toLowerCase` (ASCII case rules). -/
def jsToLower (s : String) : String :=
  String.mk (s.data.map Char.toLower)

/-- Model of `String.prototype.trim`: drop leading and trailing whitespace. -/
def jsTrim (s : String) : String :=
  String.mk (((s.data.dropWhile Char.isWhitespace).reverse.dropWhile Char.isWhitespace).reverse)

/-- `takeEq pat l` is true when `pat` occurs at the start of `l`. -/
def takeEq : List Char → List Char → Bool
  | [], _ => true
  | _ :: _, [] => false
  | p :: ps, c :: cs => p = c && takeEq ps cs

/-- `containsSub pat l` is true when `pat` occurs contiguously in `l`. -/
def containsSub (pat : List Char) : List Char → Bool
  | [] => pat.isEmpty
  | c :: cs => takeEq pat (c :: cs) || containsSub pat cs

/-- Model of `String.prototype.includes`. -/
def strContains (s pat : String) : Bool :=
  containsSub pat.data s.data

/-- Model of `String.prototype.startsWith`. -/
def strStartsWith (s pat : String) : Bool :=
  takeEq pat.data s.data

/-- Model of `String.prototype.slice(0, n)`. -/
def strTake (s : String) (n : Nat) : String :=
  String.mk (s.data.take n)

/-- Model of `split(/\r?\n/)`: line separators are `"\r\n"` and `"\n"`. -/
def splitLines : List Char → List (List Char)
  | [] => [[]]
  | '\r' :: '\n' :: rest => [] :: splitLines rest
  | '\n' :: rest => [] :: splitLines rest
  | c :: rest =>
    match splitLines rest with
    | [] => [[c]]
    | l :: ls => (c :: l) :: ls

/-- Model of `split(' ')`: split on every single space character. -/
def splitSpaces : List Char → List (List Char)
  | [] => [[]]
  | ' ' :: rest => [] :: splitSpaces rest
  | c :: rest =>
    match splitSpaces rest with
    | [] => [[c]]
    | l :: ls => (c :: l) :: ls

/-- `Math.max(lo, Math.min(hi, x))`, the clamping pattern used by the scorer. -/
def clamp (lo hi x : Int) : Int :=
  max lo (min hi x)

/-- Model of `Math.round`: round half toward positive infinity. -/
def jsRound (q : ℚ) : Int :=
  Rat.floor (q + 1 / 2)

/-- Model of `Number.prototype.toFixed(1)`: nearest tenth, ties away from zero
(for the non-negative values the module formats). -/
def ratToFixed1 (q : ℚ) : String :=
  let n : Int := Rat.floor (q * 10 + 1 / 2)
  if n < 0 then
    "-" ++ toString ((-n) / 10) ++ "." ++ toString ((-n) % 10)
  else
    toString (n / 10) ++ "." ++ toString (n % 10)

/-- Hexadecimal digits of a natural number, most significant first; model of
`Number.prototype.toString(16)` for non-negative integers. -/
def natToHexList (n : Nat) : List Char :=
  if _h : n < 16 then [Nat.digitChar n]
  else natToHexList (n / 16) ++ [Nat.digitChar (n % 16)]
decreasing_by exact Nat.div_lt_self (by omega) (by omega)

/-- Model of `(n).toString(16)` for an unsigned 32-bit value. -/
def natToHex (n : Nat) : String :=
  String.mk (natToHexList n)

/-- `'url' | 'note' | 'transcript' | 'document'` -/
inductive SourceType where
  | url
  | note
  | transcript
  | document
deriving DecidableEq, Repr, Inhabited

/-- `'opportunity' | 'risk' | 'assumption' | 'unknown'` -/
inductive ClaimType where
  | opportunity
  | risk
  | assumption
  | unknown
deriving DecidableEq, Repr, Inhabited

/-- `'high' | 'medium' | 'low'` -/
inductive Confidence where
  | high
  | medium
  | low
deriving DecidableEq, Repr, Inhabited

/-- `'Coder' | 'Researcher' | 'Writer' | 'Notion'` -/
inductive PacketRole where
  | coder
  | researcher
  | writer
  | notion
deriving DecidableEq, Repr, Inhabited

/-- `'24h' | '7d' | '30d'` -/
inductive Horizon where
  | h24
  | h7
  | h30
deriving DecidableEq, Repr, Inhabited

/-- `'accepted' | 'needs-review' | 'rejected'` -/
inductive DecisionStatus where
  | accepted
  | needsReview
  | rejected
deriving DecidableEq, Repr, Inhabited

/-- The string value of a `SourceType`, upper-cased as `type.toUpperCase()`. -/
def sourceTypeUpper : SourceType → String
  | .url => "URL"
  | .note => "NOTE"
  | .transcript => "TRANSCRIPT"
  | .document => "DOCUMENT"

/-- The string value of a `ClaimType`, upper-cased as `type.toUpperCase()`. -/
def claimTypeUpper : ClaimType → String
  | .opportunity => "OPPORTUNITY"
  | .risk => "RISK"
  | .assumption => "ASSUMPTION"
  | .unknown => "UNKNOWN"

/-- The literal string value of a `Confidence`. -/
def confidenceStr : Confidence → String
  | .high => "high"
  | .medium => "medium"
  | .low => "low"

/-- The literal string value of a `Horizon`. -/
def horizonStr : Horizon → String
  | .h24 => "24h"
  | .h7 => "7d"
  | .h30 => "30d"

/-- The position of a horizon in the fixed row order 24h, 7d, 30d of
`buildDecisions`. -/
def horizonIdx : Horizon → Nat
  | .h24 => 0
  | .h7 => 1
  | .h30 => 2

/-- The literal string value of a `DecisionStatus`. -/
def statusStr : DecisionStatus → String
  | .accepted => "accepted"
  | .needsReview => "needs-review"
  | .rejected => "rejected"

/-- The literal string value of a `PacketRole`. -/
def roleStr : PacketRole → String
  | .coder => "Coder"
  | .researcher => "Researcher"
  | .writer => "Writer"
  | .notion => "Notion"

structure ScoreBreakdown where
  signalQuality : Int
  sourceReliability : Int
  recency : Int
  contradictionPenalty : Int
  total : Int
  rationale : List String
deriving DecidableEq, Repr, Inhabited

structure SourceItem where
  id : String
  raw : String
  type : SourceType
  valid : Bool
deriving DecidableEq, Repr, Inhabited

structure Claim where
  text : String
  type : ClaimType
  confidence : Confidence
  confidenceScore : Int
  scoreBreakdown : ScoreBreakdown
  sourceId : String
deriving DecidableEq, Repr, Inhabited

structure Decision where
  id : String
  title : String
  rationale : String
  impact : Int
  effort : Int
  urgency : Int
  score : ℚ
  horizon : Horizon
  scoreBreakdown : ScoreBreakdown
  governanceReasons : List String
  status : DecisionStatus
  conflictSourceIds : List String
deriving DecidableEq, Repr, Inhabited

structure ReviewerDecision where
  decisionId : String
  status : DecisionStatus
  notes : String
  updatedAt : String
deriving DecidableEq, Repr, Inhabited

structure RoadmapItem where
  horizon : Horizon
  action : String
  owner : String
  successMetric : String
deriving DecidableEq, Repr, Inhabited

structure Packet where
  role : PacketRole
  objective : String
  context : String
  tasks : List String
  acceptanceCriteria : List String
  dependencies : List String
  risks : List String
  handoffPrompt : String
  output : String
deriving DecidableEq, Repr, Inhabited

structure SavedSession where
  id : String
  name : String
  createdAt : String
  intakeText : String
deriving DecidableEq, Repr, Inhabited

def SESSION_KEY : String := "signaldesk:sessions:v1"

def REVIEWER_KEY : String := "signaldesk:reviewers:v1"

/-- `SIGNALS.opportunity` -/
def opportunitySignals : List String :=
  ["launch", "growth", "demand", "adoption", "win", "expand", "retention", "upsell", "pipeline"]

/-- `SIGNALS.risk` -/
def riskSignals : List String :=
  ["risk", "decline", "churn", "cost", "delay", "blocked", "incident", "burn", "friction", "drop"]

/-- `SIGNALS.assumption` -/
def assumptionSignals : List String :=
  ["assume", "likely", "should", "expect", "hypothesis", "probably"]

/-- `SIGNALS.unknown` -/
def unknownSignals : List String :=
  ["unknown", "tbd", "unclear", "missing", "need data", "?"]

/-- `SIGNALS.evidence` -/
def evidenceSignals : List String :=
  ["data", "confirmed", "published", "survey", "metric", "evidence", "reported"]

/-- `SIGNALS.weakSignal` -/
def weakSignals : List String :=
  ["maybe", "possibly", "guess", "perhaps", "rumor"]

/-- `SIGNALS.recency` -/
def recencySignals : List String :=
  ["today", "this week", "current", "latest", "2026", "q1", "q2", "q3", "q4"]

/-- `SIGNALS.contradictions` -/
def contradictionSignals : List String :=
  ["however", "but", "except", "contradict", "conflict"]

/-- `classify`: first matching rule decides the source type. -/
def classify (raw : String) : SourceType :=
  let lower := jsToLower raw
  if strStartsWith raw "http://" || strStartsWith raw "https://" then .url
  else if strContains lower "transcript" || strContains lower "speaker:"
      || (splitSpaces lower.data).length > 22 then .transcript
  else if strContains lower ".pdf" || strContains lower "doc"
      || strContains lower "report" || strContains lower "memo" then .document
  else .note

/-- `parseSources`; `isUrlOk` stands for the host `new URL` syntax check used
by `safeUrl`. -/
def parseSources (isUrlOk : String → Bool) (input : String) : List SourceItem :=
  let trimmed := (splitLines input.data).map (fun l => jsTrim (String.mk l))
  let kept := trimmed.filter (fun s => s ≠ "")
  kept.enum.map (fun p =>
    let type := classify p.2
    let valid := if type = .url then isUrlOk p.2 else true
    { id := "s-" ++ toString (p.1 + 1), raw := p.2, type := type, valid := valid })

/-- `countMatches`: one point per term that occurs in the lower-cased text. -/
def countMatches (raw : String) (terms : List String) : Int :=
  let lower := jsToLower raw
  terms.foldl (fun sum term => sum + (if strContains lower term then 1 else 0)) 0

/-- `scoreBreakdown`: the four-component deterministic score. -/
def scoreBreakdown (raw : String) (sourceType : SourceType) : ScoreBreakdown :=
  let evidenceHits := countMatches raw evidenceSignals
  let weakHits := countMatches raw weakSignals
  let recencyHits := countMatches raw recencySignals
  let contradictionHits := countMatches raw contradictionSignals
    + (if strContains raw "?" then 1 else 0)
  let signalQuality := clamp 8 45
    (18 + evidenceHits * 8 - weakHits * 6 + (if raw.data.length > 90 then 4 else 0))
  let sourceReliability : Int :=
    match sourceType with
    | .url => 20
    | .document => 24
    | .transcript => 17
    | .note => 13
  let recency := clamp 0 18
    (recencyHits * 6 + (if strContains raw "2025" || strContains raw "2026" then 4 else 0))
  let contradictionPenalty := clamp 0 24 (contradictionHits * 6)
  let total := clamp 8 95 (signalQuality + sourceReliability + recency - contradictionPenalty)
  { signalQuality := signalQuality
    sourceReliability := sourceReliability
    recency := recency
    contradictionPenalty := contradictionPenalty
    total := total
    rationale :=
      ["signal quality " ++ toString signalQuality ++ " from evidence(" ++ toString evidenceHits
          ++ ")/weak(" ++ toString weakHits ++ ") markers",
       "source reliability " ++ toString sourceReliability ++ " for " ++
          (match sourceType with
           | .url => "url"
           | .note => "note"
           | .transcript => "transcript"
           | .document => "document"),
       "recency " ++ toString recency ++ " from recency markers(" ++ toString recencyHits ++ ")",
       "contradiction penalty -" ++ toString contradictionPenalty] }

/-- `scoreConfidence` -/
def scoreConfidence (raw : String) (sourceType : SourceType) : Int :=
  (scoreBreakdown raw sourceType).total

/-- `bucketConfidence` -/
def bucketConfidence (score : Int) : Confidence :=
  if score ≥ 72 then .high
  else if score ≥ 46 then .medium
  else .low

/-- The claim constructed by the `push` closure inside `extractClaimsForSource`. -/
def mkClaim (source : SourceItem) (type : ClaimType) (phrase : String) : Claim :=
  let breakdown := scoreBreakdown source.raw source.type
  { type := type
    text := phrase ++ ": " ++ strTake source.raw 120
    confidence := bucketConfidence breakdown.total
    confidenceScore := breakdown.total
    scoreBreakdown := breakdown
    sourceId := source.id }

/-- `extractClaimsForSource`: one claim per matched signal category (pushed in
the order opportunity, risk, assumption, unknown), with a fallback claim when
no category matched. -/
def extractClaimsForSource (source : SourceItem) : List Claim :=
  let text := source.raw
  let oppHits := countMatches text opportunitySignals
  let riskHits := countMatches text riskSignals
  let assumptionHits := countMatches text assumptionSignals
  let unknownHits := countMatches text unknownSignals
  let base :=
    (if oppHits > 0 ∨ source.type = .url then [mkClaim source .opportunity "Opportunity signal"] else [])
    ++ (if riskHits > 0 then [mkClaim source .risk "Risk signal"] else [])
    ++ (if assumptionHits > 0 then [mkClaim source .assumption "Assumption to validate"] else [])
    ++ (if unknownHits > 0 then [mkClaim source .unknown "Unknown requiring evidence"] else [])
  if base.isEmpty then
    [mkClaim source (if source.type = .note then .assumption else .unknown)
      "Context captured but under-specified"]
  else base

/-- `buildClaims` -/
def buildClaims (sources : List SourceItem) : List Claim :=
  sources.flatMap extractClaimsForSource

/-- `averageConfidenceScore`: 0 for the empty list, else the mean. -/
def averageConfidenceScore (claims : List Claim) : ℚ :=
  if claims.length = 0 then 0
  else ((claims.foldl (fun sum c => sum + c.confidenceScore) (0 : Int) : Int) : ℚ) / claims.length

/-- The keys of a JavaScript `Map` in insertion order of first occurrence. -/
def firstOccurrences (l : List String) : List String :=
  l.foldl (fun acc x => if x ∈ acc then acc else acc ++ [x]) []

/-- `computeConflictSourceIds`: source ids whose claims include both an
opportunity claim and a risk claim, in first-occurrence order (the `Map`
iteration order of the source). -/
def computeConflictSourceIds (claims : List Claim) : List String :=
  (firstOccurrences (claims.map (·.sourceId))).filter (fun sourceId =>
    claims.any (fun c => c.sourceId = sourceId ∧ c.type = .opportunity) &&
    claims.any (fun c => c.sourceId = sourceId ∧ c.type = .risk))

/-- `decisionId` -/
def decisionId (horizon : Horizon) (index : Nat) : String :=
  "d-" ++ horizonStr horizon ++ "-" ++ toString (index + 1)

/-- The pre-scoring template row built inside `buildDecisions` (the
`Omit<Decision, ...>` record). -/
structure DecisionRow where
  title : String
  rationale : String
  impact : Int
  effort : Int
  urgency : Int
  horizon : Horizon
deriving DecidableEq, Repr, Inhabited

/-- `scoreDecisionBreakdown` -/
def scoreDecisionBreakdown (decision : DecisionRow) (claims : List Claim) : ScoreBreakdown :=
  let avg := averageConfidenceScore claims
  let contradictionPenalty : Int := (computeConflictSourceIds claims).length * 8
  let signalQuality := clamp 10 40 (jsRound ((decision.impact : ℚ) * (16 / 5)))
  let sourceReliability := clamp 8 30 (jsRound (avg / 3))
  let recency : Int := if decision.horizon = .h24 then 16 else if decision.horizon = .h7 then 10 else 6
  let total := clamp 8 95 (signalQuality + sourceReliability + recency - contradictionPenalty)
  { signalQuality := signalQuality
    sourceReliability := sourceReliability
    recency := recency
    contradictionPenalty := contradictionPenalty
    total := total
    rationale :=
      ["signal quality " ++ toString signalQuality ++ " from impact " ++ toString decision.impact,
       "source reliability " ++ toString sourceReliability ++ " from avg claim confidence "
          ++ ratToFixed1 avg,
       "recency " ++ toString recency ++ " from horizon " ++ horizonStr decision.horizon,
       "contradiction penalty -" ++ toString contradictionPenalty] }

/-- The governance reason pushed when `score < 46`. -/
def lowScoreReason : String := "low-confidence score requires reviewer approval"

/-- The governance reason pushed when the conflict set is non-empty. -/
def conflictReason (conflicts : List String) : String :=
  "conflicting claims detected in sources: " ++ String.intercalate ", " conflicts

/-- The pass-through governance reason. -/
def passReason : String := "passes deterministic scoring and conflict checks"

/-- `autoGovernanceStatus`: status starts `accepted` and is demoted by either
trigger; reasons accumulate in trigger order, with a pass-through reason when
none fired. -/
def autoGovernanceStatus (score : Int) (conflicts : List String) :
    DecisionStatus × List String :=
  let reasons :=
    (if score < 46 then [lowScoreReason] else [])
    ++ (if conflicts.length > 0 then [conflictReason conflicts] else [])
  let status : DecisionStatus :=
    if score < 46 ∨ conflicts.length > 0 then .needsReview else .accepted
  (status, if reasons.isEmpty then [passReason] else reasons)

/-- The 24h row of `buildDecisions`. -/
def row24 (claims : List Claim) : DecisionRow :=
  let opportunities : Int := ((claims.filter (fun c => c.type = .opportunity)).length : Int)
  { title := "Run one high-leverage experiment against the strongest upside signal"
    rationale := "Anchors on " ++ toString opportunities ++ " opportunity signals."
    impact := min 10 (5 + opportunities)
    effort := 4
    urgency := 8
    horizon := .h24 }

/-- The 7d row of `buildDecisions`. -/
def row7 (claims : List Claim) : DecisionRow :=
  let risks : Int := ((claims.filter (fun c => c.type = .risk)).length : Int)
  { title := "Contain downside with owner-assigned mitigation plan"
    rationale := toString risks ++ " risk signals detected; convert each into mitigation with owner + SLA."
    impact := min 10 (4 + risks)
    effort := 5
    urgency := 7
    horizon := .h7 }

/-- The 30d row of `buildDecisions`. -/
def row30 (claims : List Claim) : DecisionRow :=
  let assumptions : Int := ((claims.filter (fun c => c.type = .assumption)).length : Int)
  let unknowns : Int := ((claims.filter (fun c => c.type = .unknown)).length : Int)
  { title := "Resolve assumptions/unknowns with targeted evidence sprint"
    rationale := toString (assumptions + unknowns) ++ " uncertain claims must be validated before larger bets."
    impact := min 10 (4 + assumptions + unknowns)
    effort := 6
    urgency := 6
    horizon := .h30 }

/-- The body of the `rows.map((decision, index) => ...)` callback in
`buildDecisions`: scoring, display score, id and auto-governance for one row. -/
def mkDecision (claims : List Claim) (index : Nat) (row : DecisionRow) : Decision :=
  let conflicts := computeConflictSourceIds claims
  let breakdown := scoreDecisionBreakdown row claims
  let weightedScore : ℚ :=
    (row.impact : ℚ) * (9 / 5) + (row.urgency : ℚ) * (6 / 5) - (row.effort : ℚ)
      + (breakdown.total : ℚ) / 50 - (breakdown.contradictionPenalty : ℚ) / 10
  let governance := autoGovernanceStatus breakdown.total conflicts
  { id := decisionId row.horizon index
    title := row.title
    rationale := row.rationale
    impact := row.impact
    effort := row.effort
    urgency := row.urgency
    score := weightedScore
    horizon := row.horizon
    scoreBreakdown := breakdown
    governanceReasons := governance.2
    status := governance.1
    conflictSourceIds := conflicts }

/-- Stable insertion of a decision into a list sorted by descending score;
together with `sortByScoreDesc` this models the stable
`sort((a, b) => b.score - a.score)` of `buildDecisions`. -/
def insertDesc (x : Decision) : List Decision → List Decision
  | [] => [x]
  | y :: ys => if y.score ≤ x.score then x :: y :: ys else y :: insertDesc x ys

/-- Stable sort by descending display score. -/
def sortByScoreDesc : List Decision → List Decision
  | [] => []
  | x :: xs => insertDesc x (sortByScoreDesc xs)

/-- `buildDecisions`: the three fixed rows, scored and governed, then stably
sorted by descending display score (the map over the literal three-row array
is unrolled here). -/
def buildDecisions (claims : List Claim) : List Decision :=
  sortByScoreDesc
    [mkDecision claims 0 (row24 claims),
     mkDecision claims 1 (row7 claims),
     mkDecision claims 2 (row30 claims)]

/-- `Record<string, ReviewerDecision>` in key insertion order. -/
abbrev ReviewerMap : Type := List (String × ReviewerDecision)

/-- The body of the `decisions.map(...)` callback in `mergeReviewerDecisions`. -/
def applyReview (reviewerMap : ReviewerMap) (decision : Decision) : Decision :=
  match List.lookup decision.id (α := String) (reviewerMap : List (String × ReviewerDecision)) with
  | none => decision
  | some review =>
    let trimmed := jsTrim review.notes
    let reasons := decision.governanceReasons
      ++ ["reviewer set status to " ++ statusStr review.status]
      ++ (if trimmed ≠ "" then ["reviewer note: " ++ trimmed] else [])
    { decision with status := review.status, governanceReasons := reasons }

/-- `mergeReviewerDecisions` -/
def mergeReviewerDecisions (decisions : List Decision) (reviewerMap : ReviewerMap) :
    List Decision :=
  decisions.map (applyReview reviewerMap)

/-- `hasPendingReview` -/
def hasPendingReview (decisions : List Decision) : Bool :=
  decisions.any (fun decision => decision.status = .needsReview)

/-- The `Map.get` after every decision was `Map.set` by horizon: the last
decision with the given horizon, if any. -/
def lastForHorizon (decisions : List Decision) (h : Horizon) : Option Decision :=
  decisions.foldl (fun acc d => if d.horizon = h then some d else acc) none

/-- The fixed fallback roadmap rows of `buildRoadmap`. -/
def roadmapFallback : Horizon → RoadmapItem
  | .h24 =>
    { horizon := .h24
      action := "Define decision owner + first measurable move"
      owner := "Operator"
      successMetric := "Owner + KPI documented" }
  | .h7 =>
    { horizon := .h7
      action := "Run execution sprint and mitigate top risk"
      owner := "Cross-functional"
      successMetric := "Risk register reduced by 30%" }
  | .h30 =>
    { horizon := .h30
      action := "Institutionalize learnings into repeatable workflow"
      owner := "Leadership"
      successMetric := "Strategy cycle time drops week-over-week" }

/-- The per-horizon owner strings of `buildRoadmap`. -/
def roadmapOwner : Horizon → String
  | .h24 => "Operator + Coder"
  | .h7 => "Ops Lead"
  | .h30 => "Strategy Lead"

/-- The per-horizon success-metric strings of `buildRoadmap`. -/
def roadmapMetric : Horizon → String
  | .h24 => "First experiment launched with baseline metric"
  | .h7 => "Mitigation and opportunity progress reviewed with evidence"
  | .h30 => "Validated playbook + next-quarter plan approved"

/-- `buildRoadmap`: one item per horizon from the matching decision, or the
fixed fallback row. -/
def buildRoadmap (decisions : List Decision) : List RoadmapItem :=
  ([Horizon.h24, Horizon.h7, Horizon.h30]).map (fun horizon =>
    match lastForHorizon decisions horizon with
    | none => roadmapFallback horizon
    | some decision =>
      { horizon := horizon
        action := decision.title
        owner := roadmapOwner horizon
        successMetric := roadmapMetric horizon })

/-- `buildPackets`: the four role packets; `context`/`risks`/`objective` are
computed from the top decision and the first three claims per type, all other
fields are the fixed template strings. -/
def buildPackets (decisions : List Decision) (claims : List Claim) : List Packet :=
  let top := decisions.head?
  let riskLines := ((claims.filter (fun c => c.type = .risk)).take 3).map (·.text)
  let unknownLines := ((claims.filter (fun c => c.type = .unknown)).take 3).map (·.text)
  let opportunityLines := ((claims.filter (fun c => c.type = .opportunity)).take 3).map (·.text)
  [{ role := .coder
     objective := match top with
       | some t => t.title
       | none => "Build the highest-impact execution slice."
     context := "Top decision score: "
       ++ (match top with | some t => ratToFixed1 t.score | none => "n/a")
       ++ " (" ++ (match top with | some t => statusStr t.status | none => "n/a") ++ ")."
     tasks :=
       ["Translate decision into an implementation plan with milestones (today/this week/this month).",
        "Implement the minimum production-usable slice with instrumentation hooks.",
        "Document rollback path, risks, and measurable success conditions."]
     acceptanceCriteria :=
       ["A runnable implementation exists with clear setup instructions.",
        "At least one metric is tracked against decision success.",
        "PR includes changelog and risk notes."]
     dependencies := ["Access to codebase + deployment target", "Metric sink (analytics/logging)"]
     risks := if riskLines.isEmpty then ["Scope expansion without measurable milestone"] else riskLines
     handoffPrompt := "You are the implementation owner. Execute the tasks in order, keep scope tight, and return a PR summary with KPI deltas."
     output := "PR + release notes + KPI dashboard hook." },
   { role := .researcher
     objective := "Resolve unknowns and de-risk assumptions with evidence."
     context := toString unknownLines.length ++ " unknown signals and "
       ++ toString riskLines.length ++ " risk signals currently active."
     tasks :=
       ["Prioritize unknown queue by decision impact.",
        "Collect 5 corroborating/disproving data points per top unknown.",
        "Publish confidence delta memo with keep/kill/iterate recommendation."]
     acceptanceCriteria :=
       ["Each top unknown has at least one primary source and one secondary source.",
        "Confidence updates are quantified and tied to evidence links.",
        "Recommendation includes explicit next decision owner."]
     dependencies := ["Source access (links/docs/transcripts)", "Timebox for evidence sprint"]
     risks := ["Confirmation bias from single-source evidence"] ++ riskLines.take 2
     handoffPrompt := "You are the research lead. Produce an evidence-backed memo, update confidence per claim, and flag any decision that should be paused."
     output := "Evidence memo + confidence update matrix." },
   { role := .writer
     objective := "Translate strategy into operator-ready narratives."
     context := toString opportunityLines.length ++ " opportunities and "
       ++ toString riskLines.length ++ " risks must be represented clearly."
     tasks :=
       ["Draft narrative flow: signal summary → ranked decisions → roadmap.",
        "Prepare two versions: 90-second standup and stakeholder digest.",
        "Include explicit ask/decision points and next check-in date."]
     acceptanceCriteria :=
       ["Narrative contains decision rationale, not just summary text.",
        "Each roadmap horizon has one owner and one success metric.",
        "Language is concise and non-ambiguous for handoff."]
     dependencies := ["Latest decision ranking", "Roadmap + risk watchlist"]
     risks := ["Overly generic language that hides tradeoffs"]
     handoffPrompt := "You are the strategy writer. Deliver concise, decision-first updates that operators can execute without clarification loops."
     output := "Briefing copy (standup + stakeholder variants)." },
   { role := .notion
     objective := "Materialize roadmap into an execution database."
     context := "Operationalize all decisions with traceability back to source claims."
     tasks :=
       ["Create database schema with impact, effort, urgency, confidence, horizon, owner.",
        "Generate filtered views for 24h/7d/30d planning cadences.",
        "Attach each row to evidence links and packet owner role."]
     acceptanceCriteria :=
       ["Every decision appears as a trackable row with owner and due window.",
        "Views exist for daily execution and weekly review.",
        "Fields support confidence changes over time."]
     dependencies := ["Notion workspace + template import permission", "Final roadmap items"]
     risks := ["Schema drift if fields are renamed without migration notes"]
     handoffPrompt := "You are the operations system owner. Build a clean Notion execution layer that mirrors roadmap horizons and supports status reporting."
     output := "Import-ready Notion schema + seeded execution board." }]

/-- The per-packet block pushed by the `packets.forEach` loop of `toMarkdown`. -/
def packetLines (packet : Packet) : List String :=
  ["### " ++ roleStr packet.role,
   "- Objective: " ++ packet.objective,
   "- Context: " ++ packet.context,
   "- Tasks:"]
  ++ packet.tasks.map (fun task => "  - " ++ task)
  ++ ["- Acceptance criteria:"]
  ++ packet.acceptanceCriteria.map (fun item => "  - " ++ item)
  ++ ["- Dependencies:"]
  ++ packet.dependencies.map (fun item => "  - " ++ item)
  ++ ["- Risks:"]
  ++ packet.risks.map (fun item => "  - " ++ item)
  ++ ["- Handoff prompt: " ++ packet.handoffPrompt,
      "- Output: " ++ packet.output,
      ""]

/-- `toMarkdown`; `now` stands for the `new Date().toISOString()` value read
at render time. -/
def toMarkdown (title : String) (sources : List SourceItem) (claims : List Claim)
    (decisions : List Decision) (roadmap : List RoadmapItem) (packets : List Packet)
    (reviewerTrailItems : List ReviewerDecision) (now : String) : String :=
  let lines : List String :=
    ["# " ++ title,
     "",
     "Generated: " ++ now,
     "",
     "## Intake Sources"]
    ++ sources.map (fun source => "- [" ++ sourceTypeUpper source.type ++ "] " ++ source.raw)
    ++ ["", "## Intelligence Brief"]
    ++ claims.map (fun claim =>
        "- (" ++ confidenceStr claim.confidence ++ "/" ++ toString claim.confidenceScore ++ ") "
          ++ claimTypeUpper claim.type ++ ": " ++ claim.text ++ " | why: "
          ++ String.intercalate "; " claim.scoreBreakdown.rationale)
    ++ ["", "## Ranked Decisions"]
    ++ decisions.map (fun decision =>
        "- " ++ decision.title ++ " | status:" ++ statusStr decision.status
          ++ " | score:" ++ ratToFixed1 decision.score
          ++ " impact:" ++ toString decision.impact
          ++ " effort:" ++ toString decision.effort
          ++ " urgency:" ++ toString decision.urgency
          ++ " | why: " ++ String.intercalate "; " decision.scoreBreakdown.rationale
          ++ " | governance: " ++ String.intercalate " | " decision.governanceReasons)
    ++ ["", "## Reviewer Trail"]
    ++ (if reviewerTrailItems.isEmpty then ["- No reviewer actions recorded."]
        else reviewerTrailItems.map (fun item =>
          "- " ++ item.decisionId ++ " → " ++ statusStr item.status ++ " @ " ++ item.updatedAt
            ++ (if item.notes ≠ "" then " | notes: " ++ item.notes else "")))
    ++ ["", "## 24h / 7d / 30d Roadmap"]
    ++ roadmap.map (fun item =>
        "- [" ++ horizonStr item.horizon ++ "] " ++ item.action
          ++ " | owner:" ++ item.owner ++ " | success:" ++ item.successMetric)
    ++ ["", "## Execution Packets"]
    ++ packets.flatMap packetLines
  String.intercalate "\n" lines

/-- Lexicographic character-list comparison used to model the ordering that
`updatedAt.localeCompare` induces on the ASCII ISO timestamps the module
stores. -/
def leChars : List Char → List Char → Bool
  | [], _ => true
  | _ :: _, [] => false
  | a :: as, b :: bs => if a < b then true else if b < a then false else leChars as bs

/-- Stable insertion for `reviewerTrail`'s ascending `updatedAt` sort. -/
def insertTrail (x : ReviewerDecision) : List ReviewerDecision → List ReviewerDecision
  | [] => [x]
  | y :: ys => if leChars x.updatedAt.data y.updatedAt.data then x :: y :: ys else y :: insertTrail x ys

/-- Stable sort for `reviewerTrail`. -/
def sortTrail : List ReviewerDecision → List ReviewerDecision
  | [] => []
  | x :: xs => insertTrail x (sortTrail xs)

/-- `reviewerTrail`: the map's values (in key insertion order) sorted by
ascending `updatedAt`. -/
def reviewerTrail (reviewerMap : ReviewerMap) : List ReviewerDecision :=
  sortTrail ((reviewerMap : List (String × ReviewerDecision)).map Prod.snd)

/-- One iteration of the DJB2-xor hash loop of `intakeScopeKey`, on the
unsigned 32-bit residue (`(hash * 33) ^ charCode` under JavaScript `ToInt32`). -/
def hashStep (h : Nat) (c : Char) : Nat :=
  Nat.xor ((h * 33) % 4294967296) c.toNat

/-- The DJB2-xor hash of `intakeScopeKey`, as the unsigned value
`hash >>> 0`. -/
def hashString (s : String) : Nat :=
  s.data.foldl hashStep 5381

/-- The `intakeText.trim().toLowerCase()` normalisation of `intakeScopeKey`. -/
def normalizeIntake (s : String) : String :=
  jsToLower (jsTrim s)

/-- `intakeScopeKey`; `sessionId = none` models an absent argument, and the
empty string is falsy like an absent one. -/
def intakeScopeKey (intakeText : String) (sessionId : Option String) : String :=
  let normalized := normalizeIntake intakeText
  if sessionId.getD "" ≠ "" then "session:" ++ sessionId.getD ""
  else if normalized = "" then "intake:empty"
  else "intake:" ++ natToHex (hashString normalized)

/-- `loadSessions`; `getItem` models the storage object (`none` = absent key)
and `parseSessions` models `JSON.parse` (`none` = thrown parse error, caught
by the surrounding `try`). The falsy check `if (!raw)` also catches the empty
string. -/
def loadSessions (getItem : String → Option String)
    (parseSessions : String → Option (List SavedSession)) : List SavedSession :=
  match getItem SESSION_KEY with
  | none => []
  | some raw => if raw = "" then [] else (parseSessions raw).getD []

/-- The nested scope → decisionId → ReviewerDecision store. -/
abbrev ReviewerStore : Type := List (String × ReviewerMap)

/-- `loadReviewerStore`, with the same storage/parse modelling as
`loadSessions`. -/
def loadReviewerStore (getItem : String → Option String)
    (parseStore : String → Option ReviewerStore) : ReviewerStore :=
  match getItem REVIEWER_KEY with
  | none => ([] : List (String × ReviewerMap))
  | some raw => if raw = "" then ([] : List (String × ReviewerMap)) else (parseStore raw).getD ([] : List (String × ReviewerMap))

/-- `loadReviewerDecisions`: the scope's map, or `{}` when absent. -/
def loadReviewerDecisions (scopeKey : String) (getItem : String → Option String)
    (parseStore : String → Option ReviewerStore) : ReviewerMap :=
  (List.lookup scopeKey (loadReviewerStore getItem parseStore : List (String × ReviewerMap))).getD ([] : List (String × ReviewerDecision))

/-- The full pipeline as composed by the application: parse, extract, rank,
merge reviewer state, derive roadmap and packets, and render markdown.
`isUrlOk` models the host URL parser and `now` the render-time clock. -/
def runPipeline (isUrlOk : String → Bool) (title intakeText : String)
    (reviewerMap : ReviewerMap) (now : String) : String :=
  let sources := parseSources isUrlOk intakeText
  let claims := buildClaims sources
  let decisions := mergeReviewerDecisions (buildDecisions claims) reviewerMap
  toMarkdown title sources claims decisions (buildRoadmap decisions)
    (buildPackets decisions claims) (reviewerTrail reviewerMap) now

/-- A concrete decision value used to exercise the reviewer merge. -/
def sampleDecision : Decision :=
  { id := "d-24h-1"
    title := "Run one high-leverage experiment against the strongest upside signal"
    rationale := "Anchors on 0 opportunity signals."
    impact := 5
    effort := 4
    urgency := 8
    score := 77 / 5
    horizon := .h24
    scoreBreakdown :=
      { signalQuality := 16, sourceReliability := 8, recency := 16,
        contradictionPenalty := 0, total := 40, rationale := [] }
    governanceReasons := [lowScoreReason]
    status := .needsReview
    conflictSourceIds := [] }

/-- A concrete reviewer entry used to exercise the reviewer merge. -/
def sampleReview : ReviewerDecision :=
  { decisionId := "d-24h-1"
    status := .accepted
    notes := " approved after sync "
    updatedAt := "2026-02-25T07:40:00.000Z" }

theorem clamp_lower (lo hi x : Int) : lo ≤ clamp lo hi x :=
  le_max_left lo _

theorem clamp_upper (lo hi x : Int) (h : lo ≤ hi) : clamp lo hi x ≤ hi :=
  max_le h (min_le_left hi x)

theorem bucketConfidence_high (score : Int) :
    bucketConfidence score = .high ↔ 72 ≤ score := by
  unfold bucketConfidence
  split_ifs with h1 h2 <;> simp <;> omega

theorem bucketConfidence_medium (score : Int) :
    bucketConfidence score = .medium ↔ 46 ≤ score ∧ score < 72 := by
  unfold bucketConfidence
  split_ifs with h1 h2 <;> simp <;> omega

theorem bucketConfidence_low (score : Int) :
    bucketConfidence score = .low ↔ score < 46 := by
  unfold bucketConfidence
  split_ifs with h1 h2 <;> simp <;> omega

/-- C3: for every text and source type, the four components of
`scoreBreakdown` are non-negative integers within their fixed ranges,
`sourceReliability` is the fixed per-type table value, and `total` is the
clamped signed sum of the components. -/
theorem scoreBreakdown_bounds (raw : String) (sourceType : SourceType) :
    0 ≤ (scoreBreakdown raw sourceType).signalQuality ∧
    (scoreBreakdown raw sourceType).signalQuality ≤ 45 ∧
    0 ≤ (scoreBreakdown raw sourceType).recency ∧
    (scoreBreakdown raw sourceType).recency ≤ 18 ∧
    0 ≤ (scoreBreakdown raw sourceType).contradictionPenalty ∧
    (scoreBreakdown raw sourceType).contradictionPenalty ≤ 24 ∧
    (scoreBreakdown raw sourceType).sourceReliability =
      (match sourceType with
       | .document => 24
       | .url => 20
       | .transcript => 17
       | .note => 13) ∧
    0 ≤ (scoreBreakdown raw sourceType).sourceReliability ∧
    0 ≤ (scoreBreakdown raw sourceType).total ∧
    (scoreBreakdown raw sourceType).total =
      clamp 8 95 ((scoreBreakdown raw sourceType).signalQuality
        + (scoreBreakdown raw sourceType).sourceReliability
        + (scoreBreakdown raw sourceType).recency
        - (scoreBreakdown raw sourceType).contradictionPenalty) := by
  have hsr : (scoreBreakdown raw sourceType).sourceReliability =
      (match sourceType with
       | .document => 24
       | .url => 20
       | .transcript => 17
       | .note => 13) := by
    cases sourceType <;> rfl
  refine ⟨?_, ?_, ?_, ?_, ?_, ?_, hsr, ?_, ?_, ?_⟩
  · exact le_trans (by norm_num) (clamp_lower 8 45 _)
  · exact clamp_upper 8 45 _ (by norm_num)
  · exact clamp_lower 0 18 _
  · exact clamp_upper 0 18 _ (by norm_num)
  · exact clamp_lower 0 24 _
  · exact clamp_upper 0 24 _ (by norm_num)
  · rw [hsr]; cases sourceType <;> norm_num
  · exact le_trans (by norm_num) (clamp_lower 8 95 _)
  · rfl

/-- C10: on the empty claim list every decision is `needs-review`; the mean
claim confidence is 0, the decision-level `sourceReliability` floors at 8 and
the three totals are 40, 31 and 27, all below the 46 acceptance threshold, so
the decision set stays blocked for export. -/
theorem buildDecisions_empty_needs_review :
    (buildDecisions []).map (fun d => (d.horizon, d.scoreBreakdown.total, d.status)) =
      [(Horizon.h24, 40, DecisionStatus.needsReview),
       (Horizon.h7, 31, DecisionStatus.needsReview),
       (Horizon.h30, 27, DecisionStatus.needsReview)] ∧
    averageConfidenceScore [] = 0 ∧
    (buildDecisions []).map (fun d => d.scoreBreakdown.sourceReliability) = [8, 8, 8] ∧
    hasPendingReview (buildDecisions []) = true := by
  decide

theorem mem_ite_singleton {α : Type} {c : Prop} [Decidable c] {x y : α}
    (h : x ∈ if c then [y] else []) : x = y := by
  split at h
  · exact List.mem_singleton.mp h
  · exact absurd h (List.not_mem_nil x)

theorem mem_extractClaims {source : SourceItem} {c : Claim}
    (h : c ∈ extractClaimsForSource source) : ∃ t p, c = mkClaim source t p := by
  simp only [extractClaimsForSource] at h
  repeat' split at h
  all_goals simp only [List.mem_append, List.mem_singleton, List.not_mem_nil, or_false,
    false_or, List.mem_cons] at h
  all_goals
    (repeat' (rcases h with h | h)) <;>
      first
        | exact h.elim
        | exact ⟨_, _, h⟩
        | exact ⟨_, _, rfl⟩

/-- C4: every claim built by `buildClaims` (fallback claims included) has
`confidenceScore` equal to its breakdown `total` and a `confidence` bucket
that agrees with the score through the fixed thresholds. -/
theorem buildClaims_confidence (sources : List SourceItem) :
    ∀ c ∈ buildClaims sources,
      c.confidence = bucketConfidence c.confidenceScore ∧
      c.confidenceScore = c.scoreBreakdown.total ∧
      (c.confidence = .high ↔ 72 ≤ c.confidenceScore) ∧
      (c.confidence = .medium ↔ 46 ≤ c.confidenceScore ∧ c.confidenceScore < 72) ∧
      (c.confidence = .low ↔ c.confidenceScore < 46) := by
  intro c hc
  simp only [buildClaims, List.mem_flatMap] at hc
  obtain ⟨source, -, hcs⟩ := hc
  obtain ⟨t, p, rfl⟩ := mem_extractClaims hcs
  exact ⟨rfl, rfl, bucketConfidence_high _, bucketConfidence_medium _, bucketConfidence_low _⟩

/-- Witness for C4 at a concrete source list. -/
theorem buildClaims_confidence_witness :
    (buildClaims [SourceItem.mk "s-1" "growth" SourceType.note true]).head! ∈
      buildClaims [SourceItem.mk "s-1" "growth" SourceType.note true] ∧
    (buildClaims [SourceItem.mk "s-1" "growth" SourceType.note true]).head!.confidence =
      bucketConfidence
        (buildClaims [SourceItem.mk "s-1" "growth" SourceType.note true]).head!.confidenceScore := by
  have hm : (buildClaims [SourceItem.mk "s-1" "growth" SourceType.note true]).head! ∈
      buildClaims [SourceItem.mk "s-1" "growth" SourceType.note true] := by decide
  exact ⟨hm, (buildClaims_confidence _ _ hm).1⟩

theorem insertDesc_perm (x : Decision) (l : List Decision) :
    (insertDesc x l).Perm (x :: l) := by
  induction l with
  | nil => simp [insertDesc]
  | cons y ys ih =>
    simp only [insertDesc]
    split
    · exact List.Perm.refl _
    · exact (ih.cons y).trans (List.Perm.swap x y ys)

theorem sortByScoreDesc_perm (l : List Decision) : (sortByScoreDesc l).Perm l := by
  induction l with
  | nil => simp [sortByScoreDesc]
  | cons x xs ih =>
    simp only [sortByScoreDesc]
    exact (insertDesc_perm x _).trans (ih.cons x)

theorem buildDecisions_mem {claims : List Claim} {d : Decision}
    (h : d ∈ buildDecisions claims) :
    d = mkDecision claims 0 (row24 claims) ∨ d = mkDecision claims 1 (row7 claims) ∨
      d = mkDecision claims 2 (row30 claims) := by
  unfold buildDecisions at h
  have h' := (sortByScoreDesc_perm _).mem_iff.mp h
  simpa using h'

theorem mkDecision_horizon (claims : List Claim) (index : Nat) (row : DecisionRow) :
    (mkDecision claims index row).horizon = row.horizon := rfl

theorem row24_horizon (claims : List Claim) : (row24 claims).horizon = .h24 := rfl

theorem row7_horizon (claims : List Claim) : (row7 claims).horizon = .h7 := rfl

theorem row30_horizon (claims : List Claim) : (row30 claims).horizon = .h30 := rfl

/-- C5: `buildDecisions` always returns exactly three decisions, one per
horizon, with the deterministic ids `d-24h-1`, `d-7d-2`, `d-30d-3`. -/
theorem buildDecisions_three_horizons (claims : List Claim) :
    (buildDecisions claims).length = 3 ∧
    ((buildDecisions claims).map (fun d => d.horizon)).Perm
      [Horizon.h24, Horizon.h7, Horizon.h30] ∧
    ∀ d ∈ buildDecisions claims,
      (d.horizon = Horizon.h24 → d.id = "d-24h-1") ∧
      (d.horizon = Horizon.h7 → d.id = "d-7d-2") ∧
      (d.horizon = Horizon.h30 → d.id = "d-30d-3") := by
  have hperm : (buildDecisions claims).Perm
      [mkDecision claims 0 (row24 claims), mkDecision claims 1 (row7 claims),
       mkDecision claims 2 (row30 claims)] := by
    unfold buildDecisions
    exact sortByScoreDesc_perm _
  refine ⟨by simpa using hperm.length_eq, ?_, ?_⟩
  · have hm := hperm.map (fun d => d.horizon)
    simpa [mkDecision_horizon, row24_horizon, row7_horizon, row30_horizon] using hm
  · intro d hd
    rcases buildDecisions_mem hd with rfl | rfl | rfl
    · exact ⟨fun _ => rfl, fun h => by simp [mkDecision_horizon, row24_horizon] at h,
        fun h => by simp [mkDecision_horizon, row24_horizon] at h⟩
    · exact ⟨fun h => by simp [mkDecision_horizon, row7_horizon] at h, fun _ => rfl,
        fun h => by simp [mkDecision_horizon, row7_horizon] at h⟩
    · exact ⟨fun h => by simp [mkDecision_horizon, row30_horizon] at h,
        fun h => by simp [mkDecision_horizon, row30_horizon] at h, fun _ => rfl⟩

/-- Witness for C5 at the empty claim list. -/
theorem buildDecisions_three_horizons_witness :
    (buildDecisions []).length = 3 ∧
    (buildDecisions []).head! ∈ buildDecisions [] ∧
    (buildDecisions []).head!.id = "d-24h-1" := by
  have hm : (buildDecisions []).head! ∈ buildDecisions [] := by decide
  have hh : (buildDecisions []).head!.horizon = Horizon.h24 := by decide
  exact ⟨(buildDecisions_three_horizons []).1, hm,
    ((buildDecisions_three_horizons []).2.2 _ hm).1 hh⟩

theorem pairwise_three {R : Decision → Decision → Prop} {a b c : Decision}
    (hab : R a b) (hac : R a c) (hbc : R b c) : List.Pairwise R [a, b, c] := by
  refine List.Pairwise.cons ?_ (List.Pairwise.cons ?_ (List.Pairwise.cons ?_ List.Pairwise.nil))
  · intro x hx
    rcases List.mem_cons.mp hx with rfl | hx
    · exact hab
    rcases List.mem_cons.mp hx with rfl | hx
    · exact hac
    · exact absurd hx (List.not_mem_nil x)
  · intro x hx
    rcases List.mem_cons.mp hx with rfl | hx
    · exact hbc
    · exact absurd hx (List.not_mem_nil x)
  · intro x hx
    exact absurd hx (List.not_mem_nil x)

theorem sortByScoreDesc_three (d1 d2 d3 : Decision)
    (h12 : horizonIdx d1.horizon < horizonIdx d2.horizon)
    (h13 : horizonIdx d1.horizon < horizonIdx d3.horizon)
    (h23 : horizonIdx d2.horizon < horizonIdx d3.horizon) :
    (sortByScoreDesc [d1, d2, d3]).Pairwise (fun a b =>
      b.score ≤ a.score ∧ (a.score = b.score → horizonIdx a.horizon < horizonIdx b.horizon)) := by
  by_cases h32 : d3.score ≤ d2.score
  · by_cases h21 : d2.score ≤ d1.score
    · have he : sortByScoreDesc [d1, d2, d3] = [d1, d2, d3] := by
        simp [sortByScoreDesc, insertDesc, h32, h21]
      rw [he]
      exact pairwise_three ⟨h21, fun _ => h12⟩ ⟨le_trans h32 h21, fun _ => h13⟩ ⟨h32, fun _ => h23⟩
    · have h21' := lt_of_not_le h21
      by_cases h31 : d3.score ≤ d1.score
      · have he : sortByScoreDesc [d1, d2, d3] = [d2, d1, d3] := by
          simp [sortByScoreDesc, insertDesc, h32, h21, h31]
        rw [he]
        exact pairwise_three ⟨le_of_lt h21', fun hEq => (ne_of_lt h21' hEq.symm).elim⟩
          ⟨h32, fun _ => h23⟩ ⟨h31, fun _ => h13⟩
      · have h31' := lt_of_not_le h31
        have he : sortByScoreDesc [d1, d2, d3] = [d2, d3, d1] := by
          simp [sortByScoreDesc, insertDesc, h32, h21, h31]
        rw [he]
        exact pairwise_three ⟨h32, fun _ => h23⟩
          ⟨le_of_lt h21', fun hEq => (ne_of_lt h21' hEq.symm).elim⟩
          ⟨le_of_lt h31', fun hEq => (ne_of_lt h31' hEq.symm).elim⟩
  · have h32' := lt_of_not_le h32
    by_cases h31 : d3.score ≤ d1.score
    · have he : sortByScoreDesc [d1, d2, d3] = [d1, d3, d2] := by
        simp [sortByScoreDesc, insertDesc, h32, h31]
      rw [he]
      exact pairwise_three ⟨h31, fun _ => h13⟩ ⟨le_trans (le_of_lt h32') h31, fun _ => h12⟩
        ⟨le_of_lt h32', fun hEq => (ne_of_lt h32' hEq.symm).elim⟩
    · have h31' := lt_of_not_le h31
      by_cases h21 : d2.score ≤ d1.score
      · have he : sortByScoreDesc [d1, d2, d3] = [d3, d1, d2] := by
          simp [sortByScoreDesc, insertDesc, h32, h31, h21]
        rw [he]
        exact pairwise_three ⟨le_of_lt h31', fun hEq => (ne_of_lt h31' hEq.symm).elim⟩
          ⟨le_of_lt h32', fun hEq => (ne_of_lt h32' hEq.symm).elim⟩ ⟨h21, fun _ => h12⟩
      · have h21' := lt_of_not_le h21
        have he : sortByScoreDesc [d1, d2, d3] = [d3, d2, d1] := by
          simp [sortByScoreDesc, insertDesc, h32, h31, h21]
        rw [he]
        exact pairwise_three ⟨le_of_lt h32', fun hEq => (ne_of_lt h32' hEq.symm).elim⟩
          ⟨le_of_lt h31', fun hEq => (ne_of_lt h31' hEq.symm).elim⟩
          ⟨le_of_lt h21', fun hEq => (ne_of_lt h21' hEq.symm).elim⟩

/-- C6: the decision list is sorted by descending display score, two equal
scores keep the original horizon order 24h, 7d, 30d, and each decision's
score is the display formula over its own fields. -/
theorem buildDecisions_sorted (claims : List Claim) :
    (buildDecisions claims).Pairwise (fun a b =>
      b.score ≤ a.score ∧ (a.score = b.score → horizonIdx a.horizon < horizonIdx b.horizon)) ∧
    ∀ d ∈ buildDecisions claims,
      d.score = (d.impact : ℚ) * (9 / 5) + (d.urgency : ℚ) * (6 / 5) - (d.effort : ℚ)
        + (d.scoreBreakdown.total : ℚ) / 50 - (d.scoreBreakdown.contradictionPenalty : ℚ) / 10 := by
  constructor
  · unfold buildDecisions
    exact sortByScoreDesc_three _ _ _
      (by show (0 : Nat) < 1; decide) (by show (0 : Nat) < 2; decide) (by show (1 : Nat) < 2; decide)
  · intro d hd
    rcases buildDecisions_mem hd with rfl | rfl | rfl <;> rfl

/-- Witness for C6 at the empty claim list. -/
theorem buildDecisions_sorted_witness :
    (buildDecisions []).head! ∈ buildDecisions [] ∧
    (buildDecisions []).head!.score =
      ((buildDecisions []).head!.impact : ℚ) * (9 / 5)
        + ((buildDecisions []).head!.urgency : ℚ) * (6 / 5)
        - ((buildDecisions []).head!.effort : ℚ)
        + ((buildDecisions []).head!.scoreBreakdown.total : ℚ) / 50
        - ((buildDecisions []).head!.scoreBreakdown.contradictionPenalty : ℚ) / 10 := by
  have hm : (buildDecisions []).head! ∈ buildDecisions [] := by decide
  exact ⟨hm, (buildDecisions_sorted []).2 _ hm⟩

theorem autoGovernanceStatus_spec (score : Int) (conflicts : List String) :
    ((autoGovernanceStatus score conflicts).1 = .needsReview ↔
      (score < 46 ∨ conflicts ≠ [])) ∧
    (score < 46 → conflicts ≠ [] →
      (autoGovernanceStatus score conflicts).2 = [lowScoreReason, conflictReason conflicts]) ∧
    (score < 46 → conflicts = [] →
      (autoGovernanceStatus score conflicts).2 = [lowScoreReason]) ∧
    (¬ score < 46 → conflicts ≠ [] →
      (autoGovernanceStatus score conflicts).2 = [conflictReason conflicts]) ∧
    (¬ score < 46 → conflicts = [] →
      (autoGovernanceStatus score conflicts).1 = .accepted ∧
      (autoGovernanceStatus score conflicts).2 = [passReason]) ∧
    (autoGovernanceStatus score conflicts).2 ≠ [] := by
  unfold autoGovernanceStatus
  by_cases h1 : score < 46 <;> by_cases h2 : conflicts = []
  · subst h2; simp [h1]
  · have hl : 0 < conflicts.length := List.length_pos.mpr h2
    simp [h1, h2, hl]
  · subst h2; simp [h1]
  · have hl : 0 < conflicts.length := List.length_pos.mpr h2
    simp [h1, h2, hl]

theorem mkDecision_governance (claims : List Claim) (index : Nat) (row : DecisionRow) :
    (mkDecision claims index row).conflictSourceIds = computeConflictSourceIds claims ∧
    ((mkDecision claims index row).status = .needsReview ↔
      ((mkDecision claims index row).scoreBreakdown.total < 46 ∨
        computeConflictSourceIds claims ≠ [])) ∧
    ((mkDecision claims index row).scoreBreakdown.total < 46 →
      computeConflictSourceIds claims ≠ [] →
      (mkDecision claims index row).governanceReasons =
        [lowScoreReason, conflictReason (computeConflictSourceIds claims)]) ∧
    ((mkDecision claims index row).scoreBreakdown.total < 46 →
      computeConflictSourceIds claims = [] →
      (mkDecision claims index row).governanceReasons = [lowScoreReason]) ∧
    (¬ (mkDecision claims index row).scoreBreakdown.total < 46 →
      computeConflictSourceIds claims ≠ [] →
      (mkDecision claims index row).governanceReasons =
        [conflictReason (computeConflictSourceIds claims)]) ∧
    (¬ (mkDecision claims index row).scoreBreakdown.total < 46 →
      computeConflictSourceIds claims = [] →
      (mkDecision claims index row).status = .accepted ∧
      (mkDecision claims index row).governanceReasons = [passReason]) ∧
    (mkDecision claims index row).governanceReasons ≠ [] := by
  have h := autoGovernanceStatus_spec (scoreDecisionBreakdown row claims).total
    (computeConflictSourceIds claims)
  exact ⟨rfl, h.1, h.2.1, h.2.2.1, h.2.2.2.1, h.2.2.2.2.1, h.2.2.2.2.2⟩

/-- C2: a decision is `needs-review` exactly when its breakdown total is
below 46 or the intake-wide conflict set is non-empty, with both reasons
appended when both trigger and a non-empty pass-through reason otherwise;
a single source matching both an opportunity and a risk keyword forces
`needs-review` on all three decisions. -/
theorem buildDecisions_governance :
    (∀ claims : List Claim, ∀ d ∈ buildDecisions claims,
      d.conflictSourceIds = computeConflictSourceIds claims ∧
      (d.status = .needsReview ↔
        (d.scoreBreakdown.total < 46 ∨ computeConflictSourceIds claims ≠ [])) ∧
      (d.scoreBreakdown.total < 46 → computeConflictSourceIds claims ≠ [] →
        d.governanceReasons = [lowScoreReason, conflictReason (computeConflictSourceIds claims)]) ∧
      (d.scoreBreakdown.total < 46 → computeConflictSourceIds claims = [] →
        d.governanceReasons = [lowScoreReason]) ∧
      (¬ d.scoreBreakdown.total < 46 → computeConflictSourceIds claims ≠ [] →
        d.governanceReasons = [conflictReason (computeConflictSourceIds claims)]) ∧
      (¬ d.scoreBreakdown.total < 46 → computeConflictSourceIds claims = [] →
        d.status = .accepted ∧ d.governanceReasons = [passReason]) ∧
      d.governanceReasons ≠ []) ∧
    (∀ d ∈ buildDecisions (buildClaims [SourceItem.mk "s-1" "growth risk" SourceType.note true]),
      d.status = .needsReview) := by
  constructor
  · intro claims d hd
    rcases buildDecisions_mem hd with rfl | rfl | rfl <;> exact mkDecision_governance claims _ _
  · decide

/-- Witness for C2 at concrete claim lists. -/
theorem buildDecisions_governance_witness :
    ((buildDecisions []).head! ∈ buildDecisions [] ∧
      (buildDecisions []).head!.governanceReasons ≠ []) ∧
    ((buildDecisions (buildClaims [SourceItem.mk "s-1" "growth risk" SourceType.note true])).head! ∈
        buildDecisions (buildClaims [SourceItem.mk "s-1" "growth risk" SourceType.note true]) ∧
      (buildDecisions
        (buildClaims [SourceItem.mk "s-1" "growth risk" SourceType.note true])).head!.status =
          .needsReview) := by
  have h1 : (buildDecisions []).head! ∈ buildDecisions [] := by decide
  have h2 : (buildDecisions
      (buildClaims [SourceItem.mk "s-1" "growth risk" SourceType.note true])).head! ∈
      buildDecisions (buildClaims [SourceItem.mk "s-1" "growth risk" SourceType.note true]) := by
    decide
  exact ⟨⟨h1, (buildDecisions_governance.1 [] _ h1).2.2.2.2.2.2⟩,
    ⟨h2, buildDecisions_governance.2 _ h2⟩⟩

/-- C7: `mergeReviewerDecisions` keeps the list length; a decision whose id
has a reviewer entry becomes a copy with the reviewer's status and with the
governance reasons extended (never replaced) by the status entry and, for
non-blank notes, the note entry; decisions without an entry pass through
unchanged. The merge is a pure function of its inputs, so the input decision
values are untouched. -/
theorem mergeReviewerDecisions_spec (decisions : List Decision) (reviewerMap : ReviewerMap) :
    (mergeReviewerDecisions decisions reviewerMap).length = decisions.length ∧
    ∀ i d, decisions.get? i = some d →
      (List.lookup d.id reviewerMap = none →
        (mergeReviewerDecisions decisions reviewerMap).get? i = some d) ∧
      (∀ review, List.lookup d.id reviewerMap = some review →
        (mergeReviewerDecisions decisions reviewerMap).get? i = some
          { d with
              status := review.status,
              governanceReasons := d.governanceReasons
                ++ ["reviewer set status to " ++ statusStr review.status]
                ++ (if jsTrim review.notes ≠ "" then ["reviewer note: " ++ jsTrim review.notes]
                    else []) }) := by
  refine ⟨List.length_map _ _, ?_⟩
  intro i d hd
  have hget : (mergeReviewerDecisions decisions reviewerMap).get? i =
      (decisions.get? i).map (applyReview reviewerMap) := List.get?_map _ _ _
  constructor
  · intro hnone
    rw [hget, hd]
    simp [applyReview, hnone]
  · intro review hsome
    rw [hget, hd]
    simp [applyReview, hsome]

/-- Witness for C7 at a concrete decision and reviewer map. -/
theorem mergeReviewerDecisions_spec_witness :
    [sampleDecision].get? 0 = some sampleDecision ∧
    List.lookup sampleDecision.id [("d-24h-1", sampleReview)] = some sampleReview ∧
    (mergeReviewerDecisions [sampleDecision] [("d-24h-1", sampleReview)]).get? 0 = some
      { sampleDecision with
          status := sampleReview.status,
          governanceReasons := sampleDecision.governanceReasons
            ++ ["reviewer set status to " ++ statusStr sampleReview.status]
            ++ (if jsTrim sampleReview.notes ≠ ""
                then ["reviewer note: " ++ jsTrim sampleReview.notes] else []) } := by
  have hl : List.lookup sampleDecision.id [("d-24h-1", sampleReview)] = some sampleReview := by
    decide
  exact ⟨rfl, hl,
    ((mergeReviewerDecisions_spec [sampleDecision] [("d-24h-1", sampleReview)]).2 0
      sampleDecision rfl).2 sampleReview hl⟩

/-- C9: an absent stored key or a stored string on which `JSON.parse` throws
makes `loadSessions` return the empty list and `loadReviewerDecisions` the
empty map; both functions are total, so no error reaches the caller. -/
theorem storage_loads_fail_open (getItem : String → Option String)
    (parseSessions : String → Option (List SavedSession))
    (parseStore : String → Option ReviewerStore) (scopeKey : String) :
    (getItem SESSION_KEY = none → loadSessions getItem parseSessions = []) ∧
    (∀ raw, getItem SESSION_KEY = some raw → parseSessions raw = none →
      loadSessions getItem parseSessions = []) ∧
    (getItem REVIEWER_KEY = none → loadReviewerDecisions scopeKey getItem parseStore = []) ∧
    (∀ raw, getItem REVIEWER_KEY = some raw → parseStore raw = none →
      loadReviewerDecisions scopeKey getItem parseStore = []) := by
  refine ⟨?_, ?_, ?_, ?_⟩
  · intro h
    simp [loadSessions, h]
  · intro raw h hp
    simp only [loadSessions, h]
    split
    · rfl
    · rw [hp]; rfl
  · intro h
    simp [loadReviewerDecisions, loadReviewerStore, h]
  · intro raw h hp
    simp only [loadReviewerDecisions, loadReviewerStore, h]
    split
    · rfl
    · rw [hp]; rfl

/-- Witness for C9 at concrete storage and parse functions. -/
theorem storage_loads_fail_open_witness :
    loadSessions (fun _ => none) (fun _ => none) = [] ∧
    loadSessions (fun _ => some "not json") (fun _ => none) = [] ∧
    loadReviewerDecisions "intake:empty" (fun _ => none) (fun _ => none) = [] ∧
    loadReviewerDecisions "intake:empty" (fun _ => some "not json") (fun _ => none) = [] := by
  refine ⟨?_, ?_, ?_, ?_⟩
  · exact (storage_loads_fail_open (fun _ => none) (fun _ => none) (fun _ => none)
      "intake:empty").1 rfl
  · exact (storage_loads_fail_open (fun _ => some "not json") (fun _ => none) (fun _ => none)
      "intake:empty").2.1 "not json" rfl rfl
  · exact (storage_loads_fail_open (fun _ => none) (fun _ => none) (fun _ => none)
      "intake:empty").2.2.1 rfl
  · exact (storage_loads_fail_open (fun _ => some "not json") (fun _ => none) (fun _ => none)
      "intake:empty").2.2.2 "not json" rfl rfl

/-- C1 counterexample: the rendered markdown embeds the render-time clock
(`Generated: <now>`), so two pipeline runs over the same intake text and the
same reviewer map produce different bytes when the clock has moved. -/
theorem runPipeline_depends_on_clock :
    runPipeline (fun _ => true) "SignalDesk Intelligence Pack" "growth" []
        "2026-02-25T07:40:00.000Z" ≠
      runPipeline (fun _ => true) "SignalDesk Intelligence Pack" "growth" []
        "2026-02-25T07:40:01.000Z" := by
  set_option maxRecDepth 100000 in decide

/-- C1 amended: the pipeline is a pure function of the intake text, the
reviewer map and the render-time clock value: two runs with the same inputs
and the same clock value produce byte-identical markdown, and the decision
stage (scores, statuses, sort order, rationale) is identical for fixed intake
and reviewer map independently of the clock. -/
theorem runPipeline_deterministic (isUrlOk : String → Bool) (title intakeText : String)
    (reviewerMap : ReviewerMap) (now1 now2 : String) (h : now1 = now2) :
    runPipeline isUrlOk title intakeText reviewerMap now1 =
      runPipeline isUrlOk title intakeText reviewerMap now2 ∧
    mergeReviewerDecisions (buildDecisions (buildClaims (parseSources isUrlOk intakeText)))
        reviewerMap =
      mergeReviewerDecisions (buildDecisions (buildClaims (parseSources isUrlOk intakeText)))
        reviewerMap := by
  subst h
  exact ⟨rfl, rfl⟩

/-- Witness for C1's amended theorem at a concrete run. -/
theorem runPipeline_deterministic_witness :
    runPipeline (fun _ => true) "SignalDesk Intelligence Pack" "growth" []
        "2026-02-25T07:40:00.000Z" =
      runPipeline (fun _ => true) "SignalDesk Intelligence Pack" "growth" []
        "2026-02-25T07:40:00.000Z" :=
  (runPipeline_deterministic (fun _ => true) "SignalDesk Intelligence Pack" "growth" []
    "2026-02-25T07:40:00.000Z" "2026-02-25T07:40:00.000Z" rfl).1

theorem natToHexList_ne_nil (n : Nat) : natToHexList n ≠ [] := by
  unfold natToHexList
  split
  · simp
  · simp

theorem digitChar_inj16 : ∀ d1, d1 < 16 → ∀ d2, d2 < 16 →
    Nat.digitChar d1 = Nat.digitChar d2 → d1 = d2 := by decide

theorem natToHexList_inj : ∀ m n : Nat, natToHexList m = natToHexList n → m = n := by
  intro m
  induction m using Nat.strong_induction_on with
  | _ m ih =>
    intro n h
    by_cases hm : m < 16 <;> by_cases hn : n < 16
    · unfold natToHexList at h
      rw [dif_pos hm, dif_pos hn] at h
      exact digitChar_inj16 m hm n hn (by simpa using h)
    · exfalso
      unfold natToHexList at h
      rw [dif_pos hm, dif_neg hn] at h
      have hlen := congrArg List.length h
      simp [List.length_append] at hlen
      exact natToHexList_ne_nil (n / 16) hlen
    · exfalso
      unfold natToHexList at h
      rw [dif_neg hm, dif_pos hn] at h
      have hlen := congrArg List.length h
      simp [List.length_append] at hlen
      exact natToHexList_ne_nil (m / 16) hlen
    · unfold natToHexList at h
      rw [dif_neg hm, dif_neg hn] at h
      have h' := congrArg List.reverse h
      simp only [List.reverse_append, List.reverse_cons, List.reverse_nil, List.nil_append,
        List.singleton_append, List.cons.injEq] at h'
      obtain ⟨hd, htl⟩ := h'
      have h1 : m % 16 = n % 16 :=
        digitChar_inj16 _ (Nat.mod_lt _ (by norm_num)) _ (Nat.mod_lt _ (by norm_num)) hd
      have h2 : m / 16 = n / 16 :=
        ih (m / 16) (Nat.div_lt_self (by omega) (by norm_num)) (n / 16)
          (List.reverse_injective htl)
      omega

theorem data_append (a b : String) : (a ++ b).data = a.data ++ b.data := rfl

/-- C8 amended: `intakeScopeKey` is deterministic on the normalised (trimmed,
lower-cased) intake text — equal normalised intakes always share a scope key —
and two non-empty normalised intakes receive different scope keys whenever
their 32-bit DJB2-xor hashes differ; because the key is that 32-bit hash,
distinct intakes with colliding hashes share a key. -/
theorem intakeScopeKey_normalized_deterministic (s t : String) :
    (normalizeIntake s = normalizeIntake t →
      intakeScopeKey s none = intakeScopeKey t none) ∧
    (normalizeIntake s ≠ "" → normalizeIntake t ≠ "" →
      hashString (normalizeIntake s) ≠ hashString (normalizeIntake t) →
      intakeScopeKey s none ≠ intakeScopeKey t none) := by
  constructor
  · intro h
    simp only [intakeScopeKey, h]
  · intro hs ht hh
    have e1 : intakeScopeKey s none = "intake:" ++ natToHex (hashString (normalizeIntake s)) := by
      simp only [intakeScopeKey]
      rw [if_neg (by decide), if_neg hs]
    have e2 : intakeScopeKey t none = "intake:" ++ natToHex (hashString (normalizeIntake t)) := by
      simp only [intakeScopeKey]
      rw [if_neg (by decide), if_neg ht]
    rw [e1, e2]
    intro heq
    have hdata := congrArg String.data heq
    rw [data_append, data_append] at hdata
    have hlist := List.append_cancel_left hdata
    exact hh (natToHexList_inj _ _ hlist)

/-- Witness for C8's amended theorem at concrete intakes. -/
theorem intakeScopeKey_normalized_deterministic_witness :
    intakeScopeKey "  ABC " none = intakeScopeKey "abc" none ∧
    intakeScopeKey "a" none ≠ intakeScopeKey "b" none := by
  constructor
  · exact (intakeScopeKey_normalized_deterministic "  ABC " "abc").1 (by decide)
  · exact (intakeScopeKey_normalized_deterministic "a" "b").2 (by decide) (by decide) (by decide)

/-- C8 counterexample: two intake texts that still differ after trimming and
lower-casing but share the 32-bit DJB2-xor hash, hence the same scope key —
reviewer state saved under one is visible under the other. -/
theorem intakeScopeKey_collision :
    intakeScopeKey "j15li4cx" none = intakeScopeKey "a2u5eu4s" none ∧
    normalizeIntake "j15li4cx" ≠ normalizeIntake "a2u5eu4s" := by
  constructor
  · have e1 : intakeScopeKey "j15li4cx" none =
        "intake:" ++ natToHex (hashString (normalizeIntake "j15li4cx")) := by
      simp only [intakeScopeKey]
      rw [if_neg (by decide), if_neg (by decide)]
    have e2 : intakeScopeKey "a2u5eu4s" none =
        "intake:" ++ natToHex (hashString (normalizeIntake "a2u5eu4s")) := by
      simp only [intakeScopeKey]
      rw [if_neg (by decide), if_neg (by decide)]
    have hh : hashString (normalizeIntake "j15li4cx") =
        hashString (normalizeIntake "a2u5eu4s") := by decide
    rw [e1, e2, hh]
  · decide

end SignalDesk
